import Mathlib

/-!
Shallow embedding of the scrapy-tenable repository (spiders/tenable.py,
pipelines.py, test.py) and proofs about the claims of its specification.

Dates are modelled as integers (proleptic day ordinals), so Python
`date` subtraction and `timedelta(days=n)` addition become integer
arithmetic.  Python exceptions become `Except` errors.
-/

namespace ScrapyTenable

/-- The plugin-id range filter of `FullTenableSpider._extract_script_id`
and `SinceTenableSpider.scape_page` (tenable.py lines 92-95 / 216-223):
`(10001 <= script_id < 98000) or (99000 <= script_id < 112290) or
(117291 <= script_id < 500000)`. -/
def is_fetchable (i : Int) : Bool :=
  decide ((10001 ≤ i ∧ i < 98000) ∨ (99000 ≤ i ∧ i < 112290) ∨ (117291 ≤ i ∧ i < 500000))

/-- Python `list(range(a, b))` on machine integers. -/
def pyRange (a b : Int) : List Int :=
  (List.range (b - a).toNat).map (fun (k : Nat) => a + (k : Int))

/-- The materialized identifier collection of the reference prototype
(test.py line 8): `list(range(10001, 98000)) + list(range(99000, 112290))
+ list(range(117291, 500000))`. -/
def TENABLE_RANGES : List Int :=
  pyRange 10001 98000 ++ pyRange 99000 112290 ++ pyRange 117291 500000

/-- Python `list(range(a, b))` on naturals. -/
def pyRangeNat (a b : Nat) : List Nat :=
  (List.range (b - a)).map (fun (k : Nat) => a + k)

/-- Page count derived by `SinceTenableSpider.scrape_all_pages`
(tenable.py line 196): `pages = total_results // 50 + 1`. -/
def pages (total_results : Nat) : Nat :=
  total_results / 50 + 1

/-- Result of `SinceTenableSpider.scrape_all_pages` (tenable.py lines
194-203): page 1 is consumed from the already-fetched response via
`self.scape_page(response)`, and pages `range(2, pages + 1)` are issued
as new requests. -/
structure ScrapeAllPages where
  local_page : Nat
  requested_pages : List Nat
  deriving DecidableEq, Repr

def scrape_all_pages (total_results : Nat) : ScrapeAllPages :=
  { local_page := 1, requested_pages := pyRangeNat 2 (pages total_results + 1) }

/-- The request URLs yielded by `scrape_all_pages`: the original URL
with `&page=` and the page number appended, for each page in
`range(2, pages + 1)`. -/
def page_requests (url : String) (total_results : Nat) : List String :=
  (scrape_all_pages total_results).requested_pages.map
    (fun page => url ++ "&page=" ++ toString page)

/-- `SinceTenableSpider.__init__` (tenable.py lines 150-159), with
calendar dates as integer day ordinals: `start_date = since_date + 1
day`; raise `ValueError` when `start_date >= today`; otherwise build
`[start_date + day for day in range((today - start_date).days + 1)]`. -/
def since_spider_init (since_date today : Int) : Except String (List Int) :=
  let start_date := since_date + 1
  if start_date ≥ today then
    Except.error "since_date must be less than today"
  else
    Except.ok ((List.range ((today - start_date).toNat + 1)).map
      (fun (day : Nat) => start_date + (day : Int)))

/-- Python exceptions that the embedded code can raise. -/
inductive PyErr
  | keyError
  | valueError
  | typeError
  | jsonDecodeError
  | parsingInterrupted
  deriving DecidableEq, Repr

/-- First-match lookup in an association list; Python `d[k]` /
`d.get(k)` on a dict (dict keys are unique, so first match is the
match). -/
def dict_get {α : Type} (k : String) : List (String × α) → Option α
  | [] => none
  | (k₀, v) :: rest => if k₀ = k then some v else dict_get k rest

/-- Model of Python `int(s)` on strings: optional surrounding ASCII
spaces, an optional sign, then one or more decimal digits; anything
else raises `ValueError` (`none` here).  The feed's `script_id` values
are plain digit strings, for which this is exact. -/
def parseDigits (cs : List Char) : Option Nat :=
  if cs ≠ [] ∧ cs.all Char.isDigit then
    some (cs.foldl (fun a c => a * 10 + (c.toNat - 48)) 0)
  else
    none

def pyInt (s : String) : Option Int :=
  let cs := ((s.toList.dropWhile (fun c => c = ' ')).reverse.dropWhile
    (fun c => c = ' ')).reverse
  match cs with
  | '+' :: rest => (parseDigits rest).map (fun n => (n : Int))
  | '-' :: rest => (parseDigits rest).map (fun n => -(n : Int))
  | rest => (parseDigits rest).map (fun n => (n : Int))

/-- One record handed to the xmltodict `item_callback` at depth 2:
either a parsed dict of fields or some other value (text, list, ...). -/
inductive Nasl
  | notDict (raw : String)
  | dict (fields : List (String × String))

/-- `FullTenableSpider._extract_script_id` (tenable.py lines 88-96):
skip non-dict records; otherwise `script_id = int(nasl["script_id"])`
(raising `KeyError` when the field is missing and `ValueError` when it
is not a parseable number), append the raw field value when
`is_fetchable`, and return `True`. -/
def extract_script_id (plugin_ids : List String) : Nasl → Except PyErr (List String × Bool)
  | .notDict _ => .ok (plugin_ids, true)
  | .dict fields =>
    match dict_get "script_id" fields with
    | none => .error .keyError
    | some s =>
      match pyInt s with
      | none => .error .valueError
      | some script_id =>
        if is_fetchable script_id then .ok (plugin_ids ++ [s], true)
        else .ok (plugin_ids, true)

/-- The xmltodict streaming parse over the depth-2 records: the
callback is invoked once per record; an exception it raises aborts the
parse, and a `False` return would abort it with `ParsingInterrupted`. -/
def parse_feed : List Nasl → List String → Except PyErr (List String)
  | [], plugin_ids => .ok plugin_ids
  | nasl :: rest, plugin_ids =>
    match extract_script_id plugin_ids nasl with
    | .error e => .error e
    | .ok (ids, true) => parse_feed rest ids
    | .ok (_, false) => .error .parsingInterrupted

/-- A parsed JSON value, as produced by `json.loads`. -/
inductive JVal
  | null
  | str (s : String)
  | num (n : Int)
  | obj (fields : List (String × JVal))
  | arr (elems : List JVal)

/-- Python subscripting `j[k]` on a JSON value: `KeyError` when the
key is absent from a dict, `TypeError` when `j` is not a dict. -/
def pyGetItem (j : JVal) (k : String) : Except PyErr JVal :=
  match j with
  | .obj fields =>
    match dict_get k fields with
    | some v => .ok v
    | none => .error .keyError
  | _ => .error .typeError

/-- `parse_plugin` of both spiders (tenable.py lines 108-110 and
235-237): `j = json.loads(response.text); data = j["data"]["_source"];
yield data`.  The response body is `none` when `json.loads` would
raise (malformed JSON).  The HTTP status is accepted as an argument to
record that the source never inspects it. -/
def parse_plugin (status : Nat) (body : Option JVal) : Except PyErr JVal :=
  match body with
  | none => .error .jsonDecodeError
  | some j =>
    match pyGetItem j "data" with
    | .error e => .error e
    | .ok data => pyGetItem data "_source"

/-- A well-formed detail payload: the record under `data._source`. -/
def sample_source : JVal := JVal.obj [("script_id", JVal.str "10001")]

/-- A well-formed detail response body wrapping `sample_source`. -/
def sample_body : JVal := JVal.obj [("data", JVal.obj [("_source", sample_source)])]

/-- A MongoDB document / a Python dict built by `dict(item)`: field
names to (string) values. -/
abbrev Doc := List (String × String)

/-- `$set` of a single field: replace the value if the field exists,
append it otherwise. -/
def set_field (doc : Doc) (k v : String) : Doc :=
  match doc with
  | [] => [(k, v)]
  | (k₀, v₀) :: rest => if k₀ = k then (k, v) :: rest else (k₀, v₀) :: set_field rest k v

/-- MongoDB `$set` with an update document: set every field of `data`
on `doc`, keeping fields of `doc` that `data` does not mention. -/
def set_fields (doc : Doc) : List (String × String) → Doc
  | [] => doc
  | (k, v) :: rest => set_fields (set_field doc k v) rest

/-- The document seeded from the equality filter
`{'script_id': data.get('script_id')}` when an upsert inserts. -/
def filter_base : Option String → Doc
  | some k => [("script_id", k)]
  | none => []

/-- `collection.update_one({'script_id': key}, {'$set': data},
upsert=True)`: replace (via `$set`) the first document whose
`script_id` equals the key, or insert a new document built from the
filter and `$set` fields when none matches. -/
def update_one_aux (key : Option String) (data : Doc) : List Doc → List Doc
  | [] => [set_fields (filter_base key) data]
  | d :: ds =>
    if dict_get "script_id" d = key then set_fields d data :: ds
    else d :: update_one_aux key data ds

/-- The upsert performed by `MongoDBPipeline.process_item`
(pipelines.py lines 96-106), keyed on `data.get('script_id')`. -/
def update_one (coll : List Doc) (data : Doc) : List Doc :=
  update_one_aux (dict_get "script_id" data) data coll

/-- Number of documents in the collection stored under the key. -/
def count_key (k : String) (coll : List Doc) : Nat :=
  coll.countP (fun d => decide (dict_get "script_id" d = some k))

/-- The first document stored under the key. -/
def find_key (k : String) (coll : List Doc) : Option Doc :=
  coll.find? (fun d => decide (dict_get "script_id" d = some k))

/-- The log line of `MongoDBPipeline.process_item`'s `except` branch:
`"Error processing item <script_id>: <error>"`. -/
def error_log_line (script_id : Option String) (e : String) : String :=
  "Error processing item " ++ (match script_id with
    | some s => s
    | none => "None") ++ ": " ++ e

/-- Outcome of one `process_item` call: the collection afterwards, the
log lines emitted, and the value returned to the framework. -/
structure ProcessResult where
  coll : List Doc
  log : List String
  returned : Doc
  deriving DecidableEq, Repr

/-- `MongoDBPipeline.process_item` (pipelines.py lines 96-106): try
the upsert; on a `PyMongoError` (modelled by the store operation `op`
returning an error) log the key and the error and fall through; either
way `return item`.  The happy-path store operation is
`fun coll data => Except.ok (update_one coll data)`. -/
def process_item (op : List Doc → Doc → Except String (List Doc))
    (coll : List Doc) (item : Doc) : ProcessResult :=
  match op coll item with
  | .ok c => { coll := c, log := [], returned := item }
  | .error e =>
    { coll := coll
      log := [error_log_line (dict_get "script_id" item) e]
      returned := item }

/-! ## Theorems -/

theorem mem_pyRange (a b i : Int) : i ∈ pyRange a b ↔ a ≤ i ∧ i < b := by
  unfold pyRange
  rw [List.mem_map]
  constructor
  · rintro ⟨k, hk, rfl⟩
    rw [List.mem_range] at hk
    omega
  · intro h
    refine ⟨(i - a).toNat, ?_, ?_⟩
    · rw [List.mem_range]
      omega
    · omega

/-- C1: `is_fetchable` accepts exactly
`[10001,98000) ∪ [99000,112290) ∪ [117291,500000)`, with the stated
boundary cases. -/
theorem c1_range_filter :
    (∀ i : Int, is_fetchable i = true ↔
      i ∈ Set.Ico (10001 : Int) 98000 ∪ Set.Ico 99000 112290 ∪ Set.Ico 117291 500000)
    ∧ is_fetchable 10000 = false ∧ is_fetchable 10001 = true
    ∧ is_fetchable 97999 = true ∧ is_fetchable 98000 = false
    ∧ is_fetchable 112289 = true ∧ is_fetchable 112290 = false
    ∧ is_fetchable 117290 = false ∧ is_fetchable 117291 = true
    ∧ is_fetchable 499999 = true ∧ is_fetchable 500000 = false := by
  refine ⟨fun i => ?_, by decide, by decide, by decide, by decide, by decide,
    by decide, by decide, by decide, by decide, by decide⟩
  simp only [is_fetchable, decide_eq_true_eq, Set.mem_union, Set.mem_Ico]
  omega

/-- C9: membership in the prototype's materialized collection
`TENABLE_RANGES` (test.py) and the spider's direct interval comparisons
(`is_fetchable`) accept exactly the same identifiers. -/
theorem c9_refinement :
    ∀ i : Int, i ∈ TENABLE_RANGES ↔ is_fetchable i = true := by
  intro i
  simp only [TENABLE_RANGES, List.mem_append, mem_pyRange, is_fetchable,
    decide_eq_true_eq]
  omega

theorem mem_pyRangeNat (a b i : Nat) : i ∈ pyRangeNat a b ↔ a ≤ i ∧ i < b := by
  unfold pyRangeNat
  rw [List.mem_map]
  constructor
  · rintro ⟨k, hk, rfl⟩
    rw [List.mem_range] at hk
    omega
  · intro h
    refine ⟨i - a, ?_, ?_⟩
    · rw [List.mem_range]
      omega
    · omega

theorem pyRangeNat_nodup (a b : Nat) : (pyRangeNat a b).Nodup := by
  unfold pyRangeNat
  exact (List.nodup_range _).map (fun x y h => by omega)

theorem pyRangeNat_length (a b : Nat) : (pyRangeNat a b).length = b - a := by
  unfold pyRangeNat
  rw [List.length_map, List.length_range]

/-- C2: the crawler derives `floor(total/50)+1` pages, consumes page 1
from the already-fetched response, and issues exactly one request per
page numbered 2 through the page count (each appending a page parameter
to the original URL), with no duplicate request; `total=120` gives 3
pages with 2 extra requests, and `total=100` also gives 3 pages. -/
theorem c2_pagination :
    (∀ total : Nat, pages total = total / 50 + 1)
    ∧ (∀ total p : Nat,
        p ∈ (scrape_all_pages total).requested_pages ↔ 2 ≤ p ∧ p ≤ pages total)
    ∧ (∀ total : Nat, ((scrape_all_pages total).requested_pages).Nodup)
    ∧ (∀ total : Nat, (scrape_all_pages total).local_page = 1
        ∧ 1 ∉ (scrape_all_pages total).requested_pages)
    ∧ (∀ total : Nat,
        1 + ((scrape_all_pages total).requested_pages).length = pages total)
    ∧ (∀ (url : String) (total : Nat),
        page_requests url total = ((scrape_all_pages total).requested_pages).map
          (fun page => url ++ "&page=" ++ toString page))
    ∧ pages 120 = 3 ∧ (scrape_all_pages 120).requested_pages = [2, 3]
    ∧ pages 100 = 3 ∧ (scrape_all_pages 100).requested_pages = [2, 3] := by
  refine ⟨fun _ => rfl, fun total p => ?_, fun total => pyRangeNat_nodup _ _,
    fun total => ⟨rfl, ?_⟩, fun total => ?_, fun url total => rfl,
    rfl, by decide, rfl, by decide⟩
  · rw [show (scrape_all_pages total).requested_pages = pyRangeNat 2 (pages total + 1) from rfl,
      mem_pyRangeNat]
    omega
  · rw [show (scrape_all_pages total).requested_pages = pyRangeNat 2 (pages total + 1) from rfl,
      mem_pyRangeNat]
    omega
  · rw [show (scrape_all_pages total).requested_pages = pyRangeNat 2 (pages total + 1) from rfl,
      pyRangeNat_length]
    unfold pages
    omega

/-- C3: the code raises `ValueError` even when `since_date` is
yesterday (here `since_date = 99`, `today = 100`), because the guard
tests `start_date = since_date + 1` against today instead of
`since_date`; the docstring says construction succeeds for any
`since_date` before today, and the spec expects a one-element window.
Dates equal to today or in the future are also rejected, as
documented. -/
theorem c3_yesterday_rejected :
    since_spider_init 99 100 = Except.error "since_date must be less than today"
    ∧ (99 : Int) < 100
    ∧ since_spider_init 100 100 = Except.error "since_date must be less than today"
    ∧ since_spider_init 101 100 = Except.error "since_date must be less than today"
    ∧ since_spider_init 98 100 = Except.ok [99, 100] := by
  exact ⟨rfl, by decide, rfl, rfl, rfl⟩

/-- C8: when construction succeeds, the dates list consists of
strictly consecutive days starting at `since_date + 1`, ending at and
including `today`, with length `today - since_date`. -/
theorem c8_date_window (since_date today : Int) (ds : List Int)
    (h : since_spider_init since_date today = Except.ok ds) :
    ds.length = (today - since_date).toNat
    ∧ (∀ (i : Nat) (hi : i < ds.length), ds.get ⟨i, hi⟩ = since_date + 1 + i)
    ∧ ds.head? = some (since_date + 1)
    ∧ ds.getLast? = some today := by
  unfold since_spider_init at h
  by_cases hge : since_date + 1 ≥ today
  · rw [if_pos hge] at h
    exact Except.noConfusion h
  · rw [if_neg hge] at h
    have hds : ds = (List.range ((today - (since_date + 1)).toNat + 1)).map
        (fun (day : Nat) => since_date + 1 + (day : Int)) := by
      injection h with h2
      exact h2.symm
    subst hds
    refine ⟨?_, ?_, ?_, ?_⟩
    · rw [List.length_map, List.length_range]
      omega
    · intro i hi
      rw [List.get_eq_getElem, List.getElem_map, List.getElem_range]
    · rw [List.head?_eq_getElem?, List.getElem?_map, List.getElem?_range (by omega)]
      rw [Option.map_some']
      rw [show ((0 : Nat) : Int) = 0 from rfl, add_zero]
    · rw [List.getLast?_eq_getElem?, List.length_map, List.length_range,
        Nat.add_sub_cancel, List.getElem?_map, List.getElem?_range (by omega)]
      rw [Option.map_some']
      congr 1
      omega

/-- C4 counterexample: a depth-2 record that IS a key-value block but
whose `script_id` field is not a parseable number makes the callback
raise `ValueError` (`int(nasl["script_id"])`), so it is not skipped
and the parse of the remaining records does not continue. -/
theorem c4_counterexample :
    extract_script_id [] (Nasl.dict [("script_id", "not-a-number-record")])
      = Except.error PyErr.valueError
    ∧ parse_feed [Nasl.dict [("script_id", "not-a-number-record")],
        Nasl.dict [("script_id", "10001")]] []
      = Except.error PyErr.valueError := by
  exact ⟨rfl, rfl⟩

/-- C4 (amended): a record that is not a key-value block at all is
skipped without raising and the parse continues; with the malformed
record of the spec's test input shaped as a non-dict, the resulting
identifier list is exactly `["10001"]`.  A dict record whose
`script_id` is unparseable, by contrast, raises (see the
counterexample). -/
theorem c4_malformed_records :
    (∀ (plugin_ids : List String) (raw : String),
      extract_script_id plugin_ids (Nasl.notDict raw) = Except.ok (plugin_ids, true))
    ∧ parse_feed [Nasl.dict [("script_id", "5000")], Nasl.dict [("script_id", "10001")],
        Nasl.dict [("script_id", "600000")], Nasl.notDict "not-a-number-record"] []
      = Except.ok ["10001"] := by
  exact ⟨fun _ _ => rfl, rfl⟩

/-- C10: whenever the feed callback does not raise, it returns `True`,
so the streaming XML parse is never terminated early by the callback's
return value. -/
theorem c10_callback_returns_true (plugin_ids : List String) (nasl : Nasl)
    (ids : List String) (b : Bool)
    (h : extract_script_id plugin_ids nasl = Except.ok (ids, b)) : b = true := by
  unfold extract_script_id at h
  split at h
  · injection h with h1
    injection h1 with h2 h3
    exact h3.symm
  · split at h
    · exact Except.noConfusion h
    · split at h
      · exact Except.noConfusion h
      · split at h
        · injection h with h1
          injection h1 with h2 h3
          exact h3.symm
        · injection h with h1
          injection h1 with h2 h3
          exact h3.symm

theorem c10_witness :
    ∃ r : List String × Bool,
      extract_script_id [] (Nasl.notDict "plain text") = Except.ok r ∧ r.2 = true :=
  ⟨([], true), rfl,
    c10_callback_returns_true [] (Nasl.notDict "plain text") [] true rfl⟩

/-- C5 counterexample: a non-200 detail response with a well-formed
body is processed exactly like a 200 response (no classification or
report of the status at all), and a malformed JSON body makes the
detail parse raise `json.JSONDecodeError` out of `parse_plugin` rather
than being handled there. -/
theorem c5_counterexample :
    parse_plugin 404 (some sample_body) = Except.ok sample_source
    ∧ parse_plugin 404 (some sample_body) = parse_plugin 200 (some sample_body)
    ∧ parse_plugin 200 none = Except.error PyErr.jsonDecodeError := by
  exact ⟨rfl, rfl, rfl⟩

/-- C5 (amended): `parse_plugin` never inspects the HTTP status;
malformed JSON raises `JSONDecodeError` and a missing `data._source`
path raises `KeyError`/`TypeError` — distinct exception types that
propagate out of `parse_plugin` (isolation of a failed fetch is the
crawling framework's doing, not this code's). -/
theorem c5_failure_modes :
    (∀ (status : Nat) (body : Option JVal),
      parse_plugin status body = parse_plugin 200 body)
    ∧ (∀ status : Nat, parse_plugin status none = Except.error PyErr.jsonDecodeError)
    ∧ (∀ status : Nat, parse_plugin status (some (JVal.obj [])) = Except.error PyErr.keyError)
    ∧ (∀ (status : Nat) (s : String),
        parse_plugin status (some (JVal.str s)) = Except.error PyErr.typeError)
    ∧ (∀ (status : Nat) (src : JVal),
        parse_plugin status (some (JVal.obj [("data", JVal.obj [("_source", src)])]))
          = Except.ok src)
    ∧ PyErr.jsonDecodeError ≠ PyErr.keyError
    ∧ PyErr.jsonDecodeError ≠ PyErr.typeError
    ∧ PyErr.keyError ≠ PyErr.typeError := by
  refine ⟨fun _ _ => rfl, fun _ => rfl, fun _ => rfl, fun _ _ => rfl,
    fun _ src => ?_, by decide, by decide, by decide⟩
  rfl

theorem dict_get_set_field_self (doc : Doc) (k v : String) :
    dict_get k (set_field doc k v) = some v := by
  induction doc with
  | nil => simp [set_field, dict_get]
  | cons hd tl ih =>
    obtain ⟨k₀, v₀⟩ := hd
    by_cases hk : k₀ = k
    · subst hk
      simp [set_field, dict_get]
    · simp only [set_field, if_neg hk, dict_get, ih]

theorem dict_get_set_field_ne (doc : Doc) (k g v : String) (h : g ≠ k) :
    dict_get k (set_field doc g v) = dict_get k doc := by
  induction doc with
  | nil => simp [set_field, dict_get, h]
  | cons hd tl ih =>
    obtain ⟨k₀, v₀⟩ := hd
    by_cases hk : k₀ = g
    · subst hk
      simp only [set_field, if_pos rfl, dict_get, if_neg h]
    · simp only [set_field, if_neg hk, dict_get, ih]

theorem dict_get_set_fields_not_mem (data : List (String × String)) (doc : Doc)
    (k : String) (h : k ∉ data.map Prod.fst) :
    dict_get k (set_fields doc data) = dict_get k doc := by
  induction data generalizing doc with
  | nil => rfl
  | cons hd tl ih =>
    obtain ⟨g, v⟩ := hd
    simp only [List.map_cons, List.mem_cons, not_or] at h
    simp only [set_fields]
    rw [ih (set_field doc g v) h.2, dict_get_set_field_ne doc k g v (fun hc => h.1 hc.symm)]

theorem dict_get_set_fields_mem (data : List (String × String)) (doc : Doc)
    (k v : String) (hnd : (data.map Prod.fst).Nodup) (h : dict_get k data = some v) :
    dict_get k (set_fields doc data) = some v := by
  induction data generalizing doc with
  | nil => exact Option.noConfusion h
  | cons hd tl ih =>
    obtain ⟨k₀, v₀⟩ := hd
    simp only [List.map_cons, List.nodup_cons] at hnd
    simp only [dict_get] at h
    by_cases hk : k₀ = k
    · rw [if_pos hk] at h
      injection h with hv
      subst hk
      simp only [set_fields]
      rw [dict_get_set_fields_not_mem tl (set_field doc k₀ v₀) k₀ hnd.1,
        dict_get_set_field_self, hv]
    · rw [if_neg hk] at h
      simp only [set_fields]
      exact ih (set_field doc k₀ v₀) hnd.2 h

theorem update_aux_no_match (key : Option String) (data : Doc) (coll : List Doc)
    (h : ∀ d ∈ coll, ¬(dict_get "script_id" d = key)) :
    update_one_aux key data coll = coll ++ [set_fields (filter_base key) data] := by
  induction coll with
  | nil => rfl
  | cons d ds ih =>
    simp only [update_one_aux]
    rw [if_neg (h d (List.mem_cons_self d ds)),
      ih (fun x hx => h x (List.mem_cons_of_mem d hx))]
    rfl

theorem update_aux_first_match (key : Option String) (data : Doc) (coll : List Doc)
    (nd : Doc) (h : ∀ d ∈ coll, ¬(dict_get "script_id" d = key))
    (hnd : dict_get "script_id" nd = key) :
    update_one_aux key data (coll ++ [nd]) = coll ++ [set_fields nd data] := by
  induction coll with
  | nil => simp [update_one_aux, hnd]
  | cons d ds ih =>
    simp only [List.cons_append, update_one_aux, List.append_eq]
    rw [if_neg (h d (List.mem_cons_self d ds)),
      ih (fun x hx => h x (List.mem_cons_of_mem d hx))]

/-- C6: upserting two records carrying the same `script_id` into a
collection where that key is absent leaves exactly one document under
the key, and that document carries the value of every field of the
record upserted last (insert when the key is absent, replace-fields
when present).  Records are Python dicts, so their field names are
assumed distinct. -/
theorem c6_upsert_last_write_wins (coll : List Doc) (r1 r2 : Doc) (k : String)
    (hk1 : dict_get "script_id" r1 = some k)
    (hk2 : dict_get "script_id" r2 = some k)
    (hn1 : (r1.map Prod.fst).Nodup)
    (hn2 : (r2.map Prod.fst).Nodup)
    (h0 : count_key k coll = 0) :
    count_key k (update_one (update_one coll r1) r2) = 1
    ∧ ∃ d, find_key k (update_one (update_one coll r1) r2) = some d
        ∧ (∀ f v, dict_get f r2 = some v → dict_get f d = some v)
        ∧ dict_get "script_id" d = some k := by
  have hnone : ∀ d ∈ coll, ¬(dict_get "script_id" d = some k) := by
    intro d hd
    have := (List.countP_eq_zero.mp h0) d hd
    simpa using this
  have hstep1 : update_one coll r1 = coll ++ [set_fields (filter_base (some k)) r1] := by
    unfold update_one
    rw [hk1]
    exact update_aux_no_match _ _ _ hnone
  have hnd1 : dict_get "script_id" (set_fields (filter_base (some k)) r1) = some k :=
    dict_get_set_fields_mem r1 _ "script_id" k hn1 hk1
  have hstep2 : update_one (update_one coll r1) r2
      = coll ++ [set_fields (set_fields (filter_base (some k)) r1) r2] := by
    rw [hstep1]
    unfold update_one
    rw [hk2]
    exact update_aux_first_match _ _ _ _ hnone hnd1
  have hnd2 : dict_get "script_id" (set_fields (set_fields (filter_base (some k)) r1) r2)
      = some k :=
    dict_get_set_fields_mem r2 _ "script_id" k hn2 hk2
  rw [hstep2]
  constructor
  · unfold count_key
    rw [List.countP_append]
    have hc0 : List.countP (fun d => decide (dict_get "script_id" d = some k)) coll = 0 := by
      rw [List.countP_eq_zero]
      intro d hd
      simpa using hnone d hd
    rw [hc0]
    simp [List.countP_cons, hnd2]
  · refine ⟨set_fields (set_fields (filter_base (some k)) r1) r2, ?_,
      fun f v hv => dict_get_set_fields_mem r2 _ f v hn2 hv, hnd2⟩
    unfold find_key
    rw [List.find?_append]
    have hf0 : List.find? (fun d => decide (dict_get "script_id" d = some k)) coll = none := by
      rw [List.find?_eq_none]
      intro d hd
      simpa using hnone d hd
    rw [hf0]
    simp [List.find?_cons, hnd2]

theorem c6_witness :
    count_key "10001" (update_one (update_one []
        [("script_id", "10001"), ("name", "first")])
        [("script_id", "10001"), ("name", "second")]) = 1
    ∧ ∃ d, find_key "10001" (update_one (update_one []
          [("script_id", "10001"), ("name", "first")])
          [("script_id", "10001"), ("name", "second")]) = some d
        ∧ (∀ f v, dict_get f [("script_id", "10001"), ("name", "second")] = some v →
            dict_get f d = some v)
        ∧ dict_get "script_id" d = some "10001" :=
  c6_upsert_last_write_wins [] [("script_id", "10001"), ("name", "first")]
    [("script_id", "10001"), ("name", "second")] "10001"
    rfl rfl (by decide) (by decide) rfl

/-- C7: when the store operation fails with a persistence error, the
pipeline logs the record's key together with the error, leaves the
collection untouched (so every other key is unaffected), does not
re-raise, and still returns the item for further processing. -/
theorem c7_persistence_error (op : List Doc → Doc → Except String (List Doc))
    (coll : List Doc) (item : Doc) (e : String)
    (h : op coll item = Except.error e) :
    process_item op coll item =
      { coll := coll
        log := [error_log_line (dict_get "script_id" item) e]
        returned := item } := by
  unfold process_item
  rw [h]

theorem c7_witness :
    process_item (fun _ _ => Except.error "connection reset") []
        [("script_id", "10001")] =
      { coll := []
        log := [error_log_line (some "10001") "connection reset"]
        returned := [("script_id", "10001")] } :=
  c7_persistence_error (fun _ _ => Except.error "connection reset") []
    [("script_id", "10001")] "connection reset" rfl

theorem c8_witness :
    since_spider_init 0 3 = Except.ok [1, 2, 3]
    ∧ ([1, 2, 3] : List Int).length = ((3 : Int) - 0).toNat
    ∧ ([1, 2, 3] : List Int).head? = some (0 + 1)
    ∧ ([1, 2, 3] : List Int).getLast? = some 3 :=
  ⟨rfl, (c8_date_window 0 3 [1, 2, 3] rfl).1, (c8_date_window 0 3 [1, 2, 3] rfl).2.2.1,
    (c8_date_window 0 3 [1, 2, 3] rfl).2.2.2⟩

end ScrapyTenable
